import Mathlib

/-!
# Verification of the hpke-rs HPKE core against its specification

This file gives a shallow embedding of the HPKE core of the `hpke-rs`
repository (`src/lib.rs` together with the algorithm types of
`hpke-rs-crypto/src/types.rs`) and proves or refutes the frozen claims
about it.

Byte strings are modelled as `List Nat` (each entry a byte value);
machine-integer overflow is made explicit with `% 2 ^ w` where the Rust
code performs wrapping arithmetic.  The crypto provider (the Rust
`HpkeCrypto` trait, a type parameter of the core) is modelled as a
structure of functions; fallible provider operations return
`Except Error`.  A Rust panic (reachable in `Context::compute_nonce`
through `usize` underflow) is modelled as `Option.none`.
-/

namespace HpkeRs

/-- Bytes are lists of naturals; every entry produced by the model is `< 256`. -/
abbrev Bytes := List Nat

/-- ASCII label bytes of a string (all labels in HPKE are ASCII, where the
character code equals the UTF-8 byte). -/
def strBytes (s : String) : Bytes := s.data.map Char.toNat

/-- `I2OSP(n, 2)`: big-endian 2-byte encoding (the Rust `u16::to_be_bytes`). -/
def u16BE (n : Nat) : Bytes := [n / 256 % 256, n % 256]

/-- `u32::to_be_bytes`: big-endian 4-byte encoding of a 32-bit value. -/
def u32BE (n : Nat) : Bytes :=
  [n / 2 ^ 24 % 256, n / 2 ^ 16 % 256, n / 2 ^ 8 % 256, n % 256]

/-- Modelled from the spec: `util::xor_bytes` (the `util` module of the crate
is not among the provided sources).  The spec fixes
`nonce = base_nonce XOR (0^(Nn-4) ∥ BE32(seq))`, a pointwise XOR of
equal-length byte strings, which `List.zipWith` realises. -/
def xorBytes (a b : Bytes) : Bytes := List.zipWith (fun x y => x ^^^ y) a b

/-- KEM algorithm identifiers (`hpke-rs-crypto/src/types.rs`). -/
inductive KemAlgorithm
  | DhKemP256
  | DhKemP384
  | DhKemP521
  | DhKemK256
  | DhKem25519
  | DhKem448
  | XWingDraft06
  deriving DecidableEq

/-- The `u16` discriminant of a `KemAlgorithm` (`#[repr(u16)]` values). -/
def KemAlgorithm.code : KemAlgorithm → Nat
  | .DhKemP256 => 0x0010
  | .DhKemP384 => 0x0011
  | .DhKemP521 => 0x0012
  | .DhKemK256 => 0x0016
  | .DhKem25519 => 0x0020
  | .DhKem448 => 0x0021
  | .XWingDraft06 => 0x004D

/-- AEAD algorithm identifiers (`hpke-rs-crypto/src/types.rs`). -/
inductive AeadAlgorithm
  | Aes128Gcm
  | Aes256Gcm
  | ChaCha20Poly1305
  | HpkeExport
  deriving DecidableEq

/-- The `u16` discriminant of an `AeadAlgorithm`. -/
def AeadAlgorithm.code : AeadAlgorithm → Nat
  | .Aes128Gcm => 0x0001
  | .Aes256Gcm => 0x0002
  | .ChaCha20Poly1305 => 0x0003
  | .HpkeExport => 0xFFFF

/-- `AeadAlgorithm::key_length` from `types.rs`. -/
def AeadAlgorithm.key_length : AeadAlgorithm → Nat
  | .Aes128Gcm => 16
  | .Aes256Gcm => 32
  | .ChaCha20Poly1305 => 32
  | .HpkeExport => 0

/-- `AeadAlgorithm::nonce_length` from `types.rs`. -/
def AeadAlgorithm.nonce_length : AeadAlgorithm → Nat
  | .Aes128Gcm => 12
  | .Aes256Gcm => 12
  | .ChaCha20Poly1305 => 12
  | .HpkeExport => 0

/-- `AeadAlgorithm::tag_length` from `types.rs`. -/
def AeadAlgorithm.tag_length : AeadAlgorithm → Nat
  | .Aes128Gcm => 16
  | .Aes256Gcm => 16
  | .ChaCha20Poly1305 => 16
  | .HpkeExport => 0

/-- KDF algorithm identifiers (`hpke-rs-crypto/src/types.rs`). -/
inductive KdfAlgorithm
  | HkdfSha256
  | HkdfSha384
  | HkdfSha512
  deriving DecidableEq

/-- The `u16` discriminant of a `KdfAlgorithm`. -/
def KdfAlgorithm.code : KdfAlgorithm → Nat
  | .HkdfSha256 => 0x0001
  | .HkdfSha384 => 0x0002
  | .HkdfSha512 => 0x0003

/-- The four HPKE modes (`src/lib.rs`, `enum Mode`, `#[repr(u8)]`). -/
inductive Mode
  | Base
  | Psk
  | Auth
  | AuthPsk
  deriving DecidableEq

/-- The `u8` discriminant of a `Mode`. -/
def Mode.code : Mode → Nat
  | .Base => 0x00
  | .Psk => 0x01
  | .Auth => 0x02
  | .AuthPsk => 0x03

/-- The provider error type `hpke_rs_crypto::error::Error`.  Its defining
file is not among the provided sources, but the exhaustive (wildcard-free)
`match` of `impl From<hpke_rs_crypto::error::Error> for HpkeError` in
`src/lib.rs` determines the exact variant list: a Rust match without a
catch-all arm compiles only if its patterns cover precisely the enum's
variants. -/
inductive Error
  | AeadOpenError
  | AeadInvalidNonce
  | AeadInvalidCiphertext
  | UnknownAeadAlgorithm
  | CryptoLibraryError (s : String)
  | HpkeInvalidOutputLength
  | UnknownKdfAlgorithm
  | KemInvalidSecretKey
  | KemInvalidPublicKey
  | UnknownKemAlgorithm
  | InsufficientRandomness
  | UnsupportedKemOperation
  | KemInvalidCiphertext
  deriving DecidableEq

/-- The HPKE error type `HpkeError` of `src/lib.rs`. -/
inductive HpkeError
  | OpenError
  | InvalidConfig
  | InvalidInput
  | UnknownMode
  | InconsistentPsk
  | MissingPsk
  | UnnecessaryPsk
  | InsecurePsk
  | CryptoError (s : String)
  | MessageLimitReached
  | InsufficientRandomness
  deriving DecidableEq

/-- `impl From<hpke_rs_crypto::error::Error> for HpkeError`
(`src/lib.rs`, lines 1001-1031), arm by arm. -/
def fromError : Error → HpkeError
  | .AeadOpenError => .OpenError
  | .AeadInvalidNonce => .InvalidInput
  | .AeadInvalidCiphertext => .InvalidInput
  | .UnknownAeadAlgorithm => .UnknownMode
  | .CryptoLibraryError s => .CryptoError s
  | .HpkeInvalidOutputLength => .CryptoError "Invalid HPKE output length"
  | .UnknownKdfAlgorithm => .CryptoError "Unknown KDF algorithm."
  | .KemInvalidSecretKey => .CryptoError "Invalid KEM secret key"
  | .KemInvalidPublicKey => .CryptoError "Invalid KEM public key"
  | .UnknownKemAlgorithm => .CryptoError "Unknown KEM algorithm"
  | .InsufficientRandomness => .InsufficientRandomness
  | .UnsupportedKemOperation => .InvalidConfig
  | .KemInvalidCiphertext => .InvalidInput

/-- Rendering of a provider `Error` used in `format!("Crypto error: {}", e)`.
The `Display` implementation lives in the `hpke-rs-crypto` crate, whose
defining file is not among the provided sources; no claim depends on the
rendered text, so the variant name is used. -/
def Error.display : Error → String
  | .AeadOpenError => "AeadOpenError"
  | .AeadInvalidNonce => "AeadInvalidNonce"
  | .AeadInvalidCiphertext => "AeadInvalidCiphertext"
  | .UnknownAeadAlgorithm => "UnknownAeadAlgorithm"
  | .CryptoLibraryError s => s
  | .HpkeInvalidOutputLength => "HpkeInvalidOutputLength"
  | .UnknownKdfAlgorithm => "UnknownKdfAlgorithm"
  | .KemInvalidSecretKey => "KemInvalidSecretKey"
  | .KemInvalidPublicKey => "KemInvalidPublicKey"
  | .UnknownKemAlgorithm => "UnknownKemAlgorithm"
  | .InsufficientRandomness => "InsufficientRandomness"
  | .UnsupportedKemOperation => "UnsupportedKemOperation"
  | .KemInvalidCiphertext => "KemInvalidCiphertext"

/-- The crypto provider: the Rust `HpkeCrypto` trait over which the core is
generic.  Each field is one trait operation used by the core under
verification; `prng` is the state a call of `Crypto::prng()` produces. -/
structure Provider where
  kdf_extract : KdfAlgorithm → Bytes → Bytes → Except Error Bytes
  kdf_expand : KdfAlgorithm → Bytes → Bytes → Nat → Except Error Bytes
  kdf_digest_length : KdfAlgorithm → Nat
  aead_key_length : AeadAlgorithm → Nat
  aead_nonce_length : AeadAlgorithm → Nat
  aead_seal : AeadAlgorithm → Bytes → Bytes → Bytes → Bytes → Except Error Bytes
  aead_open : AeadAlgorithm → Bytes → Bytes → Bytes → Bytes → Except Error Bytes
  prng : Bytes

/-- Modelled from the spec: `kdf::labeled_extract` (the `kdf` module of the
crate is not among the provided sources).  Spec section 4.2:
`LabeledExtract(salt, suite_id, label, ikm) =
 kdf_extract(salt, "HPKE-v1" ∥ suite_id ∥ label ∥ ikm)`. -/
def labeled_extract (P : Provider) (alg : KdfAlgorithm) (salt suite_id : Bytes)
    (label : String) (ikm : Bytes) : Except Error Bytes :=
  P.kdf_extract alg salt (strBytes "HPKE-v1" ++ suite_id ++ strBytes label ++ ikm)

/-- Modelled from the spec: `kdf::labeled_expand` (the `kdf` module of the
crate is not among the provided sources).  Spec section 4.2:
`LabeledExpand(prk, suite_id, label, info, L) =
 kdf_expand(prk, I2OSP(L, 2) ∥ "HPKE-v1" ∥ suite_id ∥ label ∥ info, L)`. -/
def labeled_expand (P : Provider) (alg : KdfAlgorithm) (prk suite_id : Bytes)
    (label : String) (info : Bytes) (length : Nat) : Except Error Bytes :=
  P.kdf_expand alg prk
    (u16BE length ++ strBytes "HPKE-v1" ++ suite_id ++ strBytes label ++ info) length

/-- The HPKE configuration `Hpke<Crypto>` of `src/lib.rs`: mode, algorithm
identifiers and the PRNG state. -/
structure Hpke where
  mode : Mode
  kem_id : KemAlgorithm
  kdf_id : KdfAlgorithm
  aead_id : AeadAlgorithm
  prng : Bytes
  deriving DecidableEq

/-- `Hpke::new` (`src/lib.rs`): configuration with a freshly created PRNG. -/
def Hpke.new (P : Provider) (mode : Mode) (kem_id : KemAlgorithm)
    (kdf_id : KdfAlgorithm) (aead_id : AeadAlgorithm) : Hpke :=
  { mode := mode, kem_id := kem_id, kdf_id := kdf_id, aead_id := aead_id,
    prng := P.prng }

/-- `impl Clone for Hpke` (`src/lib.rs`, lines 358-368): the four
configuration fields are copied and the PRNG field is `Crypto::prng()`,
a freshly created PRNG. -/
def Hpke.clone (P : Provider) (h : Hpke) : Hpke :=
  { mode := h.mode, kem_id := h.kem_id, kdf_id := h.kdf_id,
    aead_id := h.aead_id, prng := P.prng }

/-- `Hpke::ciphersuite` (`src/lib.rs`, lines 620-628):
`"HPKE" ∥ kem_id ∥ kdf_id ∥ aead_id` with big-endian `u16` identifiers
(`util::concat` is byte-string concatenation). -/
def Hpke.ciphersuite (h : Hpke) : Bytes :=
  strBytes "HPKE" ++ u16BE h.kem_id.code ++ u16BE h.kdf_id.code ++
    u16BE h.aead_id.code

/-- `Hpke::verify_psk_inputs` (`src/lib.rs`, lines 597-618). -/
def Hpke.verify_psk_inputs (h : Hpke) (psk psk_id : Bytes) :
    Except HpkeError Unit :=
  let got_psk := !psk.isEmpty
  let got_psk_id := !psk_id.isEmpty
  if (got_psk && !got_psk_id) || (!got_psk && got_psk_id) then
    .error .InconsistentPsk
  else if got_psk && (h.mode = Mode.Base || h.mode = Mode.Auth) then
    .error .UnnecessaryPsk
  else if !got_psk && (h.mode = Mode.Psk || h.mode = Mode.AuthPsk) then
    .error .MissingPsk
  else if (h.mode = Mode.Psk || h.mode = Mode.AuthPsk) && psk.length < 32 then
    .error .InsecurePsk
  else
    .ok ()

/-- `Hpke::key_schedule_context` (`src/lib.rs`, lines 630-645).  The two
`LabeledExtract` calls use the one-byte salt `0x00`; a provider error is
converted by `?` through `From<Error> for HpkeError`. -/
def Hpke.key_schedule_context (P : Provider) (h : Hpke)
    (info psk_id suite_id : Bytes) : Except HpkeError Bytes :=
  match labeled_extract P h.kdf_id [0] suite_id "psk_id_hash" psk_id with
  | .error e => .error (fromError e)
  | .ok psk_id_hash =>
    match labeled_extract P h.kdf_id [0] suite_id "info_hash" info with
    | .error e => .error (fromError e)
    | .ok info_hash => .ok ([h.mode.code] ++ psk_id_hash ++ info_hash)

/-- The HPKE context `Context<Crypto>` of `src/lib.rs` (the `nonce` field
holds the base nonce; `sequence_number` is a `u32` in the source). -/
structure Context where
  key : Bytes
  nonce : Bytes
  exporter_secret : Bytes
  sequence_number : Nat
  hpke : Hpke
  deriving DecidableEq

/-- `Hpke::key_schedule` (`src/lib.rs`, lines 649-698): PSK validation,
then the labeled derivation ladder, then the fresh context with
`sequence_number = 0` and a cloned configuration. -/
def Hpke.key_schedule (P : Provider) (h : Hpke)
    (shared_secret info psk psk_id : Bytes) : Except HpkeError Context :=
  match h.verify_psk_inputs psk psk_id with
  | .error e => .error e
  | .ok _ =>
    let suite_id := h.ciphersuite
    match h.key_schedule_context P info psk_id suite_id with
    | .error e => .error e
    | .ok key_schedule_context =>
      match labeled_extract P h.kdf_id shared_secret suite_id "secret" psk with
      | .error e => .error (.CryptoError ("Crypto error: " ++ e.display))
      | .ok secret =>
        match labeled_expand P h.kdf_id secret suite_id "key"
            key_schedule_context (P.aead_key_length h.aead_id) with
        | .error e => .error (.CryptoError ("Crypto error: " ++ e.display))
        | .ok key =>
          match labeled_expand P h.kdf_id secret suite_id "base_nonce"
              key_schedule_context (P.aead_nonce_length h.aead_id) with
          | .error e => .error (.CryptoError ("Crypto error: " ++ e.display))
          | .ok base_nonce =>
            match labeled_expand P h.kdf_id secret suite_id "exp"
                key_schedule_context (P.kdf_digest_length h.kdf_id) with
            | .error e => .error (.CryptoError ("Crypto error: " ++ e.display))
            | .ok exporter_secret =>
              .ok { key := key, nonce := base_nonce,
                    exporter_secret := exporter_secret,
                    sequence_number := 0, hpke := h.clone P }

/-- `Context::compute_nonce` (`src/lib.rs`, lines 320-325).  The source
computes `vec![0u8; self.nonce.len() - seq.len()]` with
`seq = u32::to_be_bytes` of length 4; when `nonce.len() < 4` the `usize`
subtraction underflows and the program panics, modelled as `none`.
`sequence_number` is a `u32`, hence the `% 2 ^ 32`. -/
def Context.compute_nonce (c : Context) : Option Bytes :=
  if c.nonce.length < 4 then
    none
  else
    some (xorBytes
      (List.replicate (c.nonce.length - 4) 0 ++ u32BE (c.sequence_number % 2 ^ 32))
      c.nonce)

/-- `Context::increment_seq` (`src/lib.rs`, lines 331-339).  The threshold
comparison is exact `u128` arithmetic (faithful for every nonce length
`Nn ≤ 15`, which covers all algorithms of `types.rs`); the increment is
the release-mode wrapping `u32` addition. -/
def Context.increment_seq (P : Provider) (c : Context) :
    Except HpkeError Context :=
  if 2 ^ (8 * P.aead_nonce_length c.hpke.aead_id) - 1 ≤ c.sequence_number then
    .error .MessageLimitReached
  else
    .ok { c with sequence_number := (c.sequence_number + 1) % 2 ^ 32 }

/-- `Context::seal` (`src/lib.rs`, lines 259-269): the AEAD is called on the
computed nonce, and only on success of the AEAD is the sequence number
incremented.  The result pairs the returned value with the final context
state (the Rust method mutates `&mut self`); `none` is the panic of
`compute_nonce`. -/
def Context.seal (P : Provider) (c : Context) (aad plain_txt : Bytes) :
    Option (Except HpkeError Bytes × Context) :=
  match c.compute_nonce with
  | none => none
  | some nonce =>
    match P.aead_seal c.hpke.aead_id c.key nonce aad plain_txt with
    | .error e => some (.error (fromError e), c)
    | .ok ctxt =>
      match c.increment_seq P with
      | .error e => some (.error e, c)
      | .ok c' => some (.ok ctxt, c')

/-- `Context::open` (`src/lib.rs`, lines 284-294), symmetric to `seal`. -/
def Context.open (P : Provider) (c : Context) (aad cipher_txt : Bytes) :
    Option (Except HpkeError Bytes × Context) :=
  match c.compute_nonce with
  | none => none
  | some nonce =>
    match P.aead_open c.hpke.aead_id c.key nonce aad cipher_txt with
    | .error e => some (.error (fromError e), c)
    | .ok ptxt =>
      match c.increment_seq P with
      | .error e => some (.error e, c)
      | .ok c' => some (.ok ptxt, c')

/-- Repeated sealing: `sealN P c f N` performs `N` successive
`Context::seal` calls with inputs `f 0, …, f (N-1)` and yields the final
context when every call returned a ciphertext (`none` otherwise). -/
def Context.sealN (P : Provider) (c : Context) (f : Nat → Bytes × Bytes) :
    Nat → Option Context
  | 0 => some c
  | n + 1 =>
    match Context.sealN P c f n with
    | none => none
    | some c' =>
      match c'.seal P (f n).1 (f n).2 with
      | some (.ok _, c'') => some c''
      | _ => none

/-- The PSK validation rule exactly as the claim states it, to be compared
with `Hpke.verify_psk_inputs`: `InconsistentPsk` when exactly one of
psk/psk_id is empty; `UnnecessaryPsk` when both are non-empty and the mode
is Base or Auth; `MissingPsk` when both are empty and the mode is Psk or
AuthPsk; `InsecurePsk` when the mode is Psk or AuthPsk and the psk is
shorter than 32 bytes; otherwise success. -/
def verifyPskInputsSpec (m : Mode) (psk psk_id : Bytes) :
    Except HpkeError Unit :=
  if psk.isEmpty ≠ psk_id.isEmpty then
    .error .InconsistentPsk
  else if !psk.isEmpty && !psk_id.isEmpty && (m = Mode.Base || m = Mode.Auth) then
    .error .UnnecessaryPsk
  else if psk.isEmpty && psk_id.isEmpty && (m = Mode.Psk || m = Mode.AuthPsk) then
    .error .MissingPsk
  else if (m = Mode.Psk || m = Mode.AuthPsk) && psk.length < 32 then
    .error .InsecurePsk
  else
    .ok ()

/-- `impl PartialEq for HpkePrivateKey` (`src/lib.rs`, lines 812-826),
byte-exact `u8` arithmetic: after the length check the byte XORs are
OR-accumulated into `different_bits`, and the result is
`1 & ((different_bits.wrapping_sub(1)).wrapping_shr(8)).wrapping_sub(1) == 0`.
`wrapping_shr(8)` on a `u8` shifts by `8 % 8 = 0` bits. -/
def hpkePrivateKeyEq (a b : Bytes) : Bool :=
  if a.length ≠ b.length then
    false
  else
    let different_bits :=
      List.foldl (fun acc p => (acc ||| (p.1 ^^^ p.2)) % 256) 0 (a.zip b)
    1 &&& (((different_bits + 255) % 256) >>> (8 % 8) + 255) % 256 = 0

/-! ## Concrete instances used by witnesses and counterexamples

The core is generic over the provider, so any structure of functions of the
right type is an admissible provider instance. -/

/-- A small always-succeeding provider instance. -/
def okProvider : Provider where
  kdf_extract := fun _ _ _ => .ok [1, 2]
  kdf_expand := fun _ _ _ length => .ok (List.replicate length 3)
  kdf_digest_length := fun _ => 2
  aead_key_length := fun _ => 2
  aead_nonce_length := fun _ => 4
  aead_seal := fun _ _ _ _ plain_txt => .ok (plain_txt ++ List.replicate 16 0)
  aead_open := fun _ _ _ _ cipher_txt => .ok cipher_txt
  prng := [9]

/-- A provider whose AEAD seal fails with a crypto-library error. -/
def sealFailProvider : Provider :=
  { okProvider with
    aead_seal := fun _ _ _ _ _ => .error (.CryptoLibraryError "boom") }

/-- A provider whose AEAD open fails with `AeadInvalidNonce`. -/
def openInvalidNonceProvider : Provider :=
  { okProvider with aead_open := fun _ _ _ _ _ => .error .AeadInvalidNonce }

/-- A provider whose AEAD open fails with `AeadOpenError` (tag mismatch). -/
def openTagFailProvider : Provider :=
  { okProvider with aead_open := fun _ _ _ _ _ => .error .AeadOpenError }

/-- A Base-mode ChaCha20Poly1305 configuration. -/
def hpkeBase : Hpke where
  mode := .Base
  kem_id := .DhKem25519
  kdf_id := .HkdfSha256
  aead_id := .ChaCha20Poly1305
  prng := [9]

/-- An export-only configuration (`AeadAlgorithm::HpkeExport`). -/
def hpkeExportCfg : Hpke := { hpkeBase with aead_id := .HpkeExport }

/-- A context with sequence number 0 and a 4-byte base nonce (matching
`okProvider.aead_nonce_length`). -/
def ctx0 : Context where
  key := [0, 0]
  nonce := [0, 0, 0, 0]
  exporter_secret := [1, 2]
  sequence_number := 0
  hpke := hpkeBase

/-- `ctx0` with its sequence number at the maximum `2 ^ (8 * 4) - 1` for the
4-byte nonce length that `okProvider` reports. -/
def ctxMax : Context := { ctx0 with sequence_number := 2 ^ 32 - 1 }

/-- A context of an export-only suite: zero-length AEAD key and base nonce. -/
def ctxExport : Context :=
  { ctx0 with key := [], nonce := [], hpke := hpkeExportCfg }

/-- A context with the standard 12-byte base nonce. -/
def ctx12 : Context :=
  { ctx0 with
    nonce := [1, 2, 3, 4, 5, 6, 7, 8, 9, 10, 11, 12]
    sequence_number := 7 }

/-- The context that `okProvider`'s key schedule produces on `hpkeBase` with
empty inputs. -/
def ctxKS : Context where
  key := [3, 3]
  nonce := [3, 3, 3, 3]
  exporter_secret := [3, 3]
  sequence_number := 0
  hpke := hpkeBase

/-- `ctx0` after one successful seal. -/
def ctx1 : Context := { ctx0 with sequence_number := 1 }

/-- `ctx0` after two successful seals. -/
def ctx2 : Context := { ctx0 with sequence_number := 2 }

/-- A PSK-mode configuration. -/
def hpkePskCfg : Hpke := { hpkeBase with mode := .Psk }

/-! ## Helper lemmas -/

theorem xorBytes_comm (a : Bytes) : ∀ b : Bytes, xorBytes a b = xorBytes b a := by
  induction a with
  | nil => intro b; cases b <;> rfl
  | cons x xs ih =>
    intro b
    cases b with
    | nil => rfl
    | cons y ys =>
      show (x ^^^ y) :: xorBytes xs ys = (y ^^^ x) :: xorBytes ys xs
      rw [Nat.xor_comm, ih ys]

/-- A successful `Context::increment_seq` yields the wrapped successor
sequence number and changes nothing else. -/
theorem increment_seq_ok (P : Provider) (c c' : Context)
    (hi : c.increment_seq P = .ok c') :
    c' = { c with sequence_number := (c.sequence_number + 1) % 2 ^ 32 } := by
  unfold Context.increment_seq at hi
  split at hi
  · cases hi
  · injection hi with hi
    exact hi.symm

/-- A successful `Context::seal` changes exactly the sequence number, to the
wrapped successor. -/
theorem seal_ok_state (P : Provider) (c : Context) (aad pt ct : Bytes)
    (c' : Context) (hs : c.seal P aad pt = some (.ok ct, c')) :
    c' = { c with sequence_number := (c.sequence_number + 1) % 2 ^ 32 } := by
  unfold Context.seal at hs
  split at hs
  · cases hs
  · split at hs
    · simp at hs
    · split at hs
      · simp at hs
      · rename_i c'' hinc
        simp at hs
        rw [← hs.2]
        exact increment_seq_ok P c c'' hinc

/-- A successful `Context::open` changes exactly the sequence number, to the
wrapped successor. -/
theorem open_ok_state (P : Provider) (c : Context) (aad ct pt : Bytes)
    (c' : Context) (hs : c.open P aad ct = some (.ok pt, c')) :
    c' = { c with sequence_number := (c.sequence_number + 1) % 2 ^ 32 } := by
  unfold Context.open at hs
  split at hs
  · cases hs
  · split at hs
    · simp at hs
    · split at hs
      · simp at hs
      · rename_i c'' hinc
        simp at hs
        rw [← hs.2]
        exact increment_seq_ok P c c'' hinc

/-- Sequence evolution over `N` successful seals. -/
theorem sealN_seq (P : Provider) (c : Context) (f : Nat → Bytes × Bytes) :
    ∀ (N : Nat) (cN : Context), c.sealN P f N = some cN →
      c.sequence_number < 2 ^ 32 →
      cN.sequence_number = (c.sequence_number + N) % 2 ^ 32 := by
  intro N
  induction N with
  | zero =>
    intro cN h hlt
    injection h with h
    subst h
    exact (Nat.mod_eq_of_lt hlt).symm
  | succ n ih =>
    intro cN h hlt
    unfold Context.sealN at h
    split at h
    · cases h
    · rename_i c' hc'
      split at h
      · rename_i ct c'' hseal
        injection h with h
        have h1 := ih c' hc' hlt
        have h2 := seal_ok_state P c' (f n).1 (f n).2 ct c'' hseal
        have h3 : cN.sequence_number = (c'.sequence_number + 1) % 2 ^ 32 := by
          rw [← h, h2]
        rw [h3, h1]
        have hm : (2 : Nat) ^ 32 = 4294967296 := by norm_num
        rw [hm]
        omega
      · cases h

/-- The successful key schedule, decomposed: the sequence number is zero,
the stored configuration is the clone, and the key, base nonce and exporter
secret are the labeled expansions that the claims describe. -/
theorem key_schedule_ok_cases (P : Provider) (h : Hpke)
    (shared_secret info psk psk_id : Bytes) (ctx : Context)
    (hks : h.key_schedule P shared_secret info psk psk_id = .ok ctx) :
    ctx.sequence_number = 0 ∧ ctx.hpke = h.clone P ∧
    ∃ psk_id_hash info_hash secret,
      labeled_extract P h.kdf_id [0] h.ciphersuite "psk_id_hash" psk_id =
        .ok psk_id_hash ∧
      labeled_extract P h.kdf_id [0] h.ciphersuite "info_hash" info =
        .ok info_hash ∧
      labeled_extract P h.kdf_id shared_secret h.ciphersuite "secret" psk =
        .ok secret ∧
      labeled_expand P h.kdf_id secret h.ciphersuite "key"
        ([h.mode.code] ++ psk_id_hash ++ info_hash)
        (P.aead_key_length h.aead_id) = .ok ctx.key ∧
      labeled_expand P h.kdf_id secret h.ciphersuite "base_nonce"
        ([h.mode.code] ++ psk_id_hash ++ info_hash)
        (P.aead_nonce_length h.aead_id) = .ok ctx.nonce ∧
      labeled_expand P h.kdf_id secret h.ciphersuite "exp"
        ([h.mode.code] ++ psk_id_hash ++ info_hash)
        (P.kdf_digest_length h.kdf_id) = .ok ctx.exporter_secret := by
  simp only [Hpke.key_schedule] at hks
  split at hks
  · cases hks
  · split at hks
    · cases hks
    · rename_i ksc hksc
      split at hks
      · cases hks
      · rename_i secret hsecret
        split at hks
        · cases hks
        · rename_i key hkey
          split at hks
          · cases hks
          · rename_i base_nonce hnonce
            split at hks
            · cases hks
            · rename_i exporter hexp
              injection hks with hks
              subst hks
              unfold Hpke.key_schedule_context at hksc
              split at hksc
              · cases hksc
              · rename_i pih hpih
                split at hksc
                · cases hksc
                · rename_i ih hih
                  injection hksc with hksc
                  subst hksc
                  exact ⟨rfl, rfl, pih, ih, secret, hpih, hih, hsecret,
                    hkey, hnonce, hexp⟩

/-! ## Claim theorems -/

/-- C1: for every provider, configuration and inputs passing PSK validation
(equivalently: on which `key_schedule` succeeds), the returned `Context`
has `key = LabeledExpand(secret, suite_id, "key", ks_ctx, Nk)`,
`base nonce = LabeledExpand(secret, suite_id, "base_nonce", ks_ctx, Nn)`,
`exporter secret = LabeledExpand(secret, suite_id, "exp", ks_ctx, Nh)`,
where `suite_id = "HPKE" ∥ I2OSP(kem,2) ∥ I2OSP(kdf,2) ∥ I2OSP(aead,2)`,
`ks_ctx = I2OSP(mode,1) ∥ LabeledExtract(0x00, suite_id, "psk_id_hash",
psk_id) ∥ LabeledExtract(0x00, suite_id, "info_hash", info)` and
`secret = LabeledExtract(shared_secret, suite_id, "secret", psk)`; and its
sequence number is 0. -/
theorem c1_key_schedule_rfc_ladder :
    ∀ (P : Provider) (h : Hpke) (shared_secret info psk psk_id : Bytes)
      (ctx : Context),
      h.key_schedule P shared_secret info psk psk_id = .ok ctx →
      ∃ psk_id_hash info_hash secret,
        labeled_extract P h.kdf_id [0]
          (strBytes "HPKE" ++ u16BE h.kem_id.code ++ u16BE h.kdf_id.code ++
            u16BE h.aead_id.code) "psk_id_hash" psk_id = .ok psk_id_hash ∧
        labeled_extract P h.kdf_id [0]
          (strBytes "HPKE" ++ u16BE h.kem_id.code ++ u16BE h.kdf_id.code ++
            u16BE h.aead_id.code) "info_hash" info = .ok info_hash ∧
        labeled_extract P h.kdf_id shared_secret
          (strBytes "HPKE" ++ u16BE h.kem_id.code ++ u16BE h.kdf_id.code ++
            u16BE h.aead_id.code) "secret" psk = .ok secret ∧
        labeled_expand P h.kdf_id secret
          (strBytes "HPKE" ++ u16BE h.kem_id.code ++ u16BE h.kdf_id.code ++
            u16BE h.aead_id.code) "key"
          (h.mode.code :: (psk_id_hash ++ info_hash))
          (P.aead_key_length h.aead_id) = .ok ctx.key ∧
        labeled_expand P h.kdf_id secret
          (strBytes "HPKE" ++ u16BE h.kem_id.code ++ u16BE h.kdf_id.code ++
            u16BE h.aead_id.code) "base_nonce"
          (h.mode.code :: (psk_id_hash ++ info_hash))
          (P.aead_nonce_length h.aead_id) = .ok ctx.nonce ∧
        labeled_expand P h.kdf_id secret
          (strBytes "HPKE" ++ u16BE h.kem_id.code ++ u16BE h.kdf_id.code ++
            u16BE h.aead_id.code) "exp"
          (h.mode.code :: (psk_id_hash ++ info_hash))
          (P.kdf_digest_length h.kdf_id) = .ok ctx.exporter_secret ∧
        ctx.sequence_number = 0 := by
  intro P h shared_secret info psk psk_id ctx hks
  obtain ⟨hseq, _, pih, ih, secret, h1, h2, h3, h4, h5, h6⟩ :=
    key_schedule_ok_cases P h shared_secret info psk psk_id ctx hks
  exact ⟨pih, ih, secret, h1, h2, h3, h4, h5, h6, hseq⟩

/-- C1 witness: the theorem applied to a concrete provider, the Base-mode
ChaCha20Poly1305 configuration and empty inputs. -/
theorem c1_witness :
    ∃ psk_id_hash info_hash secret,
      labeled_extract okProvider hpkeBase.kdf_id [0]
        (strBytes "HPKE" ++ u16BE hpkeBase.kem_id.code ++
          u16BE hpkeBase.kdf_id.code ++ u16BE hpkeBase.aead_id.code)
        "psk_id_hash" [] = .ok psk_id_hash ∧
      labeled_extract okProvider hpkeBase.kdf_id [0]
        (strBytes "HPKE" ++ u16BE hpkeBase.kem_id.code ++
          u16BE hpkeBase.kdf_id.code ++ u16BE hpkeBase.aead_id.code)
        "info_hash" [] = .ok info_hash ∧
      labeled_extract okProvider hpkeBase.kdf_id []
        (strBytes "HPKE" ++ u16BE hpkeBase.kem_id.code ++
          u16BE hpkeBase.kdf_id.code ++ u16BE hpkeBase.aead_id.code)
        "secret" [] = .ok secret ∧
      labeled_expand okProvider hpkeBase.kdf_id secret
        (strBytes "HPKE" ++ u16BE hpkeBase.kem_id.code ++
          u16BE hpkeBase.kdf_id.code ++ u16BE hpkeBase.aead_id.code)
        "key" (hpkeBase.mode.code :: (psk_id_hash ++ info_hash))
        (okProvider.aead_key_length hpkeBase.aead_id) = .ok ctxKS.key ∧
      labeled_expand okProvider hpkeBase.kdf_id secret
        (strBytes "HPKE" ++ u16BE hpkeBase.kem_id.code ++
          u16BE hpkeBase.kdf_id.code ++ u16BE hpkeBase.aead_id.code)
        "base_nonce" (hpkeBase.mode.code :: (psk_id_hash ++ info_hash))
        (okProvider.aead_nonce_length hpkeBase.aead_id) = .ok ctxKS.nonce ∧
      labeled_expand okProvider hpkeBase.kdf_id secret
        (strBytes "HPKE" ++ u16BE hpkeBase.kem_id.code ++
          u16BE hpkeBase.kdf_id.code ++ u16BE hpkeBase.aead_id.code)
        "exp" (hpkeBase.mode.code :: (psk_id_hash ++ info_hash))
        (okProvider.kdf_digest_length hpkeBase.kdf_id) =
          .ok ctxKS.exporter_secret ∧
      ctxKS.sequence_number = 0 :=
  c1_key_schedule_rfc_ladder okProvider hpkeBase [] [] [] [] ctxKS rfl

/-- C2 counterexample: a context whose sequence number has reached the
maximum `2 ^ (8 * Nn) - 1` (with provider nonce length `Nn = 4`).  The
claim says every such seal fails with `MessageLimitReached` and the AEAD is
not invoked; in fact the AEAD is invoked first, so a provider whose AEAD
seal fails makes `seal` return that provider error instead, and with a
succeeding AEAD the result still depends on the AEAD call made before the
limit check. -/
theorem c2_counterexample :
    Context.seal sealFailProvider ctxMax [] [] =
      some (.error (.CryptoError "boom"), ctxMax) ∧
    Context.seal okProvider ctxMax [] [] =
      some (.error .MessageLimitReached, ctxMax) ∧
    HpkeError.CryptoError "boom" ≠ HpkeError.MessageLimitReached :=
  ⟨rfl, rfl, by decide⟩

/-- C2 amended: at the message limit, seal and open return
`MessageLimitReached` (leaving the context unchanged) *provided the AEAD
call, which is made before the sequence check, succeeds*; the provider's
AEAD function is invoked and its output discarded. -/
theorem c2_seal_open_at_limit_amended :
    (∀ (P : Provider) (c : Context) (aad pt nonce ct : Bytes),
      c.compute_nonce = some nonce →
      P.aead_seal c.hpke.aead_id c.key nonce aad pt = .ok ct →
      2 ^ (8 * P.aead_nonce_length c.hpke.aead_id) - 1 ≤ c.sequence_number →
      c.seal P aad pt = some (.error .MessageLimitReached, c)) ∧
    (∀ (P : Provider) (c : Context) (aad ct nonce pt : Bytes),
      c.compute_nonce = some nonce →
      P.aead_open c.hpke.aead_id c.key nonce aad ct = .ok pt →
      2 ^ (8 * P.aead_nonce_length c.hpke.aead_id) - 1 ≤ c.sequence_number →
      c.open P aad ct = some (.error .MessageLimitReached, c)) := by
  constructor
  · intro P c aad pt nonce ct hn hs hmax
    simp only [Context.seal, hn, hs, Context.increment_seq]
    rw [if_pos hmax]
  · intro P c aad ct nonce pt hn ho hmax
    simp only [Context.open, hn, ho, Context.increment_seq]
    rw [if_pos hmax]

/-- C2 witness: the amended theorem applied to a succeeding provider with
nonce length 4 and a context at sequence number `2 ^ 32 - 1`. -/
theorem c2_witness :
    Context.seal okProvider ctxMax [] [] =
      some (.error .MessageLimitReached, ctxMax) ∧
    Context.open okProvider ctxMax [] [] =
      some (.error .MessageLimitReached, ctxMax) :=
  ⟨c2_seal_open_at_limit_amended.1 okProvider ctxMax [] []
      [255, 255, 255, 255] (List.replicate 16 0) (by decide) rfl (by decide),
   c2_seal_open_at_limit_amended.2 okProvider ctxMax [] []
      [255, 255, 255, 255] [] (by decide) rfl (by decide)⟩

/-- C3: whenever the base nonce has length `Nn ≥ 4` (and the sequence
number is in `u32` range, as the source's field type guarantees), the nonce
that `seal` and `open` pass to the AEAD — `Context::compute_nonce` — equals
the base nonce XORed with `Nn - 4` zero bytes followed by the 4-byte
big-endian sequence number. -/
theorem c3_compute_nonce_xor_layout :
    ∀ c : Context, 4 ≤ c.nonce.length → c.sequence_number < 2 ^ 32 →
      c.compute_nonce = some (xorBytes c.nonce
        (List.replicate (c.nonce.length - 4) 0 ++ u32BE c.sequence_number)) := by
  intro c h4 hseq
  unfold Context.compute_nonce
  rw [if_neg (by omega), Nat.mod_eq_of_lt hseq, xorBytes_comm]

/-- C3 witness: the theorem applied to a context with a 12-byte base nonce
and sequence number 7. -/
theorem c3_witness :
    4 ≤ ctx12.nonce.length ∧ ctx12.sequence_number < 2 ^ 32 ∧
    ctx12.compute_nonce = some (xorBytes ctx12.nonce
      (List.replicate (ctx12.nonce.length - 4) 0 ++
        u32BE ctx12.sequence_number)) :=
  ⟨by decide, by decide, c3_compute_nonce_xor_layout ctx12 (by decide) (by decide)⟩

/-- C4 counterexample: the claim says every AEAD-open failure surfaces as
`OpenError`; but a provider failure `AeadInvalidNonce` is mapped by
`From<Error> for HpkeError` to `InvalidInput`, not `OpenError`. -/
theorem c4_counterexample :
    Context.open openInvalidNonceProvider ctx0 [] [] =
      some (.error .InvalidInput, ctx0) ∧
    HpkeError.InvalidInput ≠ HpkeError.OpenError :=
  ⟨rfl, by decide⟩

/-- C4 amended: when the provider's AEAD open fails with error `e`,
`Context::open` returns the `HpkeError` image of `e` — which is `OpenError`
exactly for a tag-verification failure `AeadOpenError` — and leaves the
context (in particular the sequence number) unchanged, so the caller can
reattempt. -/
theorem c4_open_failure_amended :
    (∀ (P : Provider) (c : Context) (aad ct nonce : Bytes) (e : Error),
      c.compute_nonce = some nonce →
      P.aead_open c.hpke.aead_id c.key nonce aad ct = .error e →
      c.open P aad ct = some (.error (fromError e), c)) ∧
    fromError .AeadOpenError = .OpenError := by
  constructor
  · intro P c aad ct nonce e hn ho
    simp only [Context.open, hn, ho]
  · rfl

/-- C4 witness: the amended theorem applied to a provider whose AEAD open
reports a tag mismatch; `open` returns `OpenError` and the context is
returned unchanged. -/
theorem c4_witness :
    Context.open openTagFailProvider ctx0 [] [] =
      some (.error .OpenError, ctx0) :=
  c4_open_failure_amended.1 openTagFailProvider ctx0 [] [] [0, 0, 0, 0]
    .AeadOpenError (by decide) rfl

/-- C5: `verify_psk_inputs` returns exactly the errors the claim lists, in
the claim's precedence order (`verifyPskInputsSpec` transcribes the claim),
and `key_schedule` performs this validation before any derivation: a
validation error is returned unchanged for every provider. -/
theorem c5_verify_psk_inputs_precedence :
    ∀ (h : Hpke) (psk psk_id : Bytes),
      h.verify_psk_inputs psk psk_id = verifyPskInputsSpec h.mode psk psk_id ∧
      ∀ (P : Provider) (shared_secret info : Bytes) (e : HpkeError),
        h.verify_psk_inputs psk psk_id = .error e →
        h.key_schedule P shared_secret info psk psk_id = .error e := by
  intro h psk psk_id
  constructor
  · cases hm : h.mode <;> cases psk <;> cases psk_id <;>
      simp [Hpke.verify_psk_inputs, verifyPskInputsSpec, hm]
  · intro P shared_secret info e hv
    simp only [Hpke.key_schedule, hv]

/-- C5 witness: in PSK mode, a non-empty psk with an empty psk_id is
`InconsistentPsk`, and `key_schedule` returns it before any derivation. -/
theorem c5_witness :
    Hpke.verify_psk_inputs hpkePskCfg [1] [] =
      verifyPskInputsSpec hpkePskCfg.mode [1] [] ∧
    Hpke.key_schedule okProvider hpkePskCfg [] [] [1] [] =
      .error .InconsistentPsk :=
  ⟨(c5_verify_psk_inputs_precedence hpkePskCfg [1] []).1,
   (c5_verify_psk_inputs_precedence hpkePskCfg [1] []).2 okProvider [] []
      .InconsistentPsk rfl⟩

/-- C6 (code bug): on an export-only context (`AeadAlgorithm::HpkeExport`,
zero-length key and base nonce) the claim and the spec require `seal` and
`open` to return `InvalidConfig`; instead `compute_nonce` evaluates
`nonce.len() - 4 = 0 - 4` in `usize`, which panics — modelled as `none` —
for every provider and all inputs, so no `HpkeError` is ever produced. -/
theorem c6_export_only_seal_open_panic :
    ∀ (P : Provider) (aad pt ct : Bytes),
      Context.seal P ctxExport aad pt = none ∧
      Context.open P ctxExport aad ct = none :=
  fun _ _ _ _ => ⟨rfl, rfl⟩

/-- C7 (code bug): `HpkePrivateKey` equality.  `wrapping_shr(8)` on the
`u8` accumulator shifts by `8 % 8 = 0` bits, so the final test checks the
*parity* of the XOR-OR accumulator rather than its zero-ness: equal-length
keys that differ only above the least significant bit compare equal. -/
theorem c7_private_key_eq_parity_bug :
    hpkePrivateKeyEq [0] [2] = true ∧ ([0] : Bytes) ≠ [2] ∧
    hpkePrivateKeyEq [0, 0] [4, 8] = true ∧ ([0, 0] : Bytes) ≠ [4, 8] :=
  ⟨by decide, by decide, by decide, by decide⟩

/-- C8: a context fresh out of `key_schedule` has sequence number 0; each
successful seal or open increments the sequence number by exactly one
(within the `u32` counter range); and after `N` successful seals the
sequence number equals `N` for every `N` representable in the counter. -/
theorem c8_sequence_number_counting :
    (∀ (P : Provider) (h : Hpke) (shared_secret info psk psk_id : Bytes)
       (ctx : Context),
       h.key_schedule P shared_secret info psk psk_id = .ok ctx →
       ctx.sequence_number = 0) ∧
    (∀ (P : Provider) (c : Context) (aad pt ct : Bytes) (c' : Context),
       c.seal P aad pt = some (.ok ct, c') →
       c.sequence_number + 1 < 2 ^ 32 →
       c'.sequence_number = c.sequence_number + 1) ∧
    (∀ (P : Provider) (c : Context) (aad ct pt : Bytes) (c' : Context),
       c.open P aad ct = some (.ok pt, c') →
       c.sequence_number + 1 < 2 ^ 32 →
       c'.sequence_number = c.sequence_number + 1) ∧
    (∀ (P : Provider) (c : Context) (f : Nat → Bytes × Bytes) (N : Nat)
       (cN : Context),
       c.sealN P f N = some cN → c.sequence_number = 0 → N < 2 ^ 32 →
       cN.sequence_number = N) := by
  refine ⟨?_, ?_, ?_, ?_⟩
  · intro P h shared_secret info psk psk_id ctx hks
    exact (key_schedule_ok_cases P h shared_secret info psk psk_id ctx hks).1
  · intro P c aad pt ct c' hs hlt
    rw [seal_ok_state P c aad pt ct c' hs]
    exact Nat.mod_eq_of_lt hlt
  · intro P c aad ct pt c' hs hlt
    rw [open_ok_state P c aad ct pt c' hs]
    exact Nat.mod_eq_of_lt hlt
  · intro P c f N cN h h0 hN
    have hlt : c.sequence_number < 2 ^ 32 := by rw [h0]; norm_num
    rw [sealN_seq P c f N cN h hlt, h0, Nat.zero_add, Nat.mod_eq_of_lt hN]

/-- C8 witness: the four parts applied to a concrete provider: the key
schedule context has sequence number 0, one seal and one open step from 0
give 1, and two successful seals from a fresh context give 2. -/
theorem c8_witness :
    ctxKS.sequence_number = 0 ∧
    ctx1.sequence_number = ctx0.sequence_number + 1 ∧
    ctx2.sequence_number = 2 :=
  ⟨c8_sequence_number_counting.1 okProvider hpkeBase [] [] [] [] ctxKS rfl,
   c8_sequence_number_counting.2.1 okProvider ctx0 [] []
      (List.replicate 16 0) ctx1 rfl (by decide),
   c8_sequence_number_counting.2.2.2 okProvider ctx0 (fun _ => ([], [])) 2
      ctx2 rfl rfl (by decide)⟩

/-- C9: `Clone for Hpke` copies the mode and the three algorithm
identifiers and installs `Crypto::prng()` — the provider's fresh PRNG —
as the PRNG field; the clone's PRNG does not depend on the original's
PRNG state at all. -/
theorem c9_clone_fresh_prng :
    ∀ (P : Provider) (h : Hpke),
      (h.clone P).mode = h.mode ∧ (h.clone P).kem_id = h.kem_id ∧
      (h.clone P).kdf_id = h.kdf_id ∧ (h.clone P).aead_id = h.aead_id ∧
      (h.clone P).prng = P.prng ∧
      ∀ h₂ : Hpke, (h.clone P).prng = (h₂.clone P).prng :=
  fun _ _ => ⟨rfl, rfl, rfl, rfl, rfl, fun _ => rfl⟩

/-- C10: the conversion of provider errors to `HpkeError` is a total Lean
function on the 13 provider-error variants and maps `AeadOpenError` to
`OpenError`; `AeadInvalidNonce`, `AeadInvalidCiphertext` and
`KemInvalidCiphertext` to `InvalidInput`; `UnsupportedKemOperation` to
`InvalidConfig`; `InsufficientRandomness` to `InsufficientRandomness`;
`UnknownAeadAlgorithm` to `UnknownMode`; and every remaining variant to a
`CryptoError`. -/
theorem c10_from_error_mapping :
    fromError .AeadOpenError = .OpenError ∧
    fromError .AeadInvalidNonce = .InvalidInput ∧
    fromError .AeadInvalidCiphertext = .InvalidInput ∧
    fromError .KemInvalidCiphertext = .InvalidInput ∧
    fromError .UnsupportedKemOperation = .InvalidConfig ∧
    fromError .InsufficientRandomness = .InsufficientRandomness ∧
    fromError .UnknownAeadAlgorithm = .UnknownMode ∧
    (∀ s, fromError (.CryptoLibraryError s) = .CryptoError s) ∧
    (∃ s, fromError .HpkeInvalidOutputLength = .CryptoError s) ∧
    (∃ s, fromError .UnknownKdfAlgorithm = .CryptoError s) ∧
    (∃ s, fromError .KemInvalidSecretKey = .CryptoError s) ∧
    (∃ s, fromError .KemInvalidPublicKey = .CryptoError s) ∧
    (∃ s, fromError .UnknownKemAlgorithm = .CryptoError s) :=
  ⟨rfl, rfl, rfl, rfl, rfl, rfl, rfl, fun _ => rfl, ⟨_, rfl⟩, ⟨_, rfl⟩,
    ⟨_, rfl⟩, ⟨_, rfl⟩, ⟨_, rfl⟩⟩

end HpkeRs
